import Mathlib

/-
Verification of the quill-api repository: a frontend `PaymentService`
HTTP wrapper (src/payment_integration_example.js) and a startup script
(src/start.sh).  The JavaScript is shallowly embedded: JSON values are an
inductive type, JS objects used as header maps are association lists with
assignment (overwrite-or-append) semantics, the network is a function from
requests to responses, and browser effects (localStorage, window.open,
alert, console) are an explicit state record.
-/

namespace QuillPayment

/-- JSON values, as produced by `response.json()` and consumed by
`JSON.stringify`.  Numbers are modelled as integers; every number appearing
in the repository is integral. -/
inductive Json where
  | null : Json
  | bool : Bool → Json
  | num : Int → Json
  | str : String → Json
  | arr : List Json → Json
  | obj : List (String × Json) → Json

/-- JS property access `v.k`: a field lookup on an object, `undefined`
(here `none`) on anything else or when the key is absent. -/
def Json.getField : Json → String → Option Json
  | Json.obj fields, k => (fields.find? (fun p => p.1 == k)).map (fun p => p.2)
  | _, _ => none

/-- JS truthiness of a possibly-undefined value, as tested by
`if (response.success)` and `if (this.authToken)`. -/
def jsTruthy : Option Json → Bool
  | none => false
  | some Json.null => false
  | some (Json.bool b) => b
  | some (Json.num n) => !(n == 0)
  | some (Json.str s) => !(s == "")
  | some (Json.arr _) => true
  | some (Json.obj _) => true

/-- Decimal/hex digit as a string, for JSON string escapes. -/
def hexDigitStr (n : Nat) : String :=
  (["0", "1", "2", "3", "4", "5", "6", "7", "8", "9", "a", "b", "c", "d", "e", "f"]).getD n "0"

/-- How `JSON.stringify` escapes one character inside a string literal. -/
def escapeJsonChar (c : Char) : String :=
  if c.toNat = 34 then "\\\""
  else if c.toNat = 92 then "\\\\"
  else if c.toNat = 8 then "\\b"
  else if c.toNat = 9 then "\\t"
  else if c.toNat = 10 then "\\n"
  else if c.toNat = 12 then "\\f"
  else if c.toNat = 13 then "\\r"
  else if c.toNat < 32 then "\\u00" ++ hexDigitStr (c.toNat / 16) ++ hexDigitStr (c.toNat % 16)
  else String.singleton c

/-- `JSON.stringify` escaping of a whole string. -/
def escapeJsonString (s : String) : String :=
  String.join (s.toList.map escapeJsonChar)

mutual

/-- `JSON.stringify` on a JSON value. -/
def jsonStringify : Json → String
  | Json.null => "null"
  | Json.bool true => "true"
  | Json.bool false => "false"
  | Json.num n => toString n
  | Json.str s => "\"" ++ escapeJsonString s ++ "\""
  | Json.arr elems => "[" ++ jsonStringifyElems elems ++ "]"
  | Json.obj fields => "\x7b" ++ jsonStringifyFields fields ++ "\x7d"

/-- Comma-separated stringification of array elements. -/
def jsonStringifyElems : List Json → String
  | [] => ""
  | [v] => jsonStringify v
  | v :: rest => jsonStringify v ++ "," ++ jsonStringifyElems rest

/-- Comma-separated stringification of object fields. -/
def jsonStringifyFields : List (String × Json) → String
  | [] => ""
  | [p] => "\"" ++ escapeJsonString p.1 ++ "\":" ++ jsonStringify p.2
  | p :: rest =>
      "\"" ++ escapeJsonString p.1 ++ "\":" ++ jsonStringify p.2 ++ "," ++ jsonStringifyFields rest

end

mutual

/-- JS string coercion `String(v)` of a defined JSON value (used by template
literals and `localStorage.setItem`). -/
def jsToStringVal : Json → String
  | Json.null => "null"
  | Json.bool true => "true"
  | Json.bool false => "false"
  | Json.num n => toString n
  | Json.str s => s
  | Json.arr elems => jsToStringElems elems
  | Json.obj _ => "[object Object]"

/-- JS array-to-string: elements joined with commas, `null` elements
rendering as the empty string. -/
def jsToStringElems : List Json → String
  | [] => ""
  | [Json.null] => ""
  | [v] => jsToStringVal v
  | Json.null :: rest => "," ++ jsToStringElems rest
  | v :: rest => jsToStringVal v ++ "," ++ jsToStringElems rest

end

/-- JS string coercion of a possibly-undefined value. -/
def jsToString : Option Json → String
  | none => "undefined"
  | some v => jsToStringVal v

/-- JS object assignment `m[k] = v` on an association list: overwrite the
first binding of `k` in place, or append a new binding. -/
def setKey : List (String × String) → String → String → List (String × String)
  | [], k, v => [(k, v)]
  | p :: rest, k, v => if p.1 == k then (k, v) :: rest else p :: setKey rest k v

/-- Lookup of a header (or localStorage) key in an association list. -/
def lookupKey (m : List (String × String)) (k : String) : Option String :=
  (m.find? (fun p => p.1 == k)).map (fun p => p.2)

/-- Spreading `...extra` into an object that already holds the bindings
`m`: each entry of `extra` is assigned in order. -/
def mergeHeaders (m : List (String × String)) (extra : List (String × String)) :
    List (String × String) :=
  extra.foldl (fun acc p => setKey acc p.1 p.2) m

/-- The `PaymentService` class state: `apiBaseUrl` and `authToken`
(a string or `null`). -/
structure PaymentService where
  apiBaseUrl : String
  authToken : Option String
deriving DecidableEq

/-- `new PaymentService()` with both constructor defaults. -/
def defaultPaymentService : PaymentService :=
  { apiBaseUrl := "http://localhost:8000", authToken := none }

/-- `setAuthToken(token)`. -/
def setAuthToken (s : PaymentService) (token : Option String) : PaymentService :=
  { s with authToken := token }

/-- The options bundle passed to `makeAuthenticatedRequest`:
optional `method`, optional `body` (already a string, the callers pass
`JSON.stringify(...)`), optional `headers` object. -/
structure RequestOptions where
  method : Option String
  body : Option String
  headers : List (String × String)
deriving DecidableEq

/-- `makeAuthenticatedRequest('/path')` with no options argument. -/
def emptyOptions : RequestOptions :=
  { method := none, body := none, headers := [] }

/-- The argument bundle handed to `fetch`: url, and the spread of `options`
with the computed `headers`. -/
structure HttpRequest where
  url : String
  method : Option String
  body : Option String
  headers : List (String × String)
deriving DecidableEq

/-- The headers object built by `makeAuthenticatedRequest`:
`'Content-Type': 'application/json'` first, then `...options.headers`,
then `headers['Authorization'] = 'Bearer ' + token` when the stored token
is truthy. -/
def buildHeaders (tok : Option String) (extra : List (String × String)) :
    List (String × String) :=
  let merged := mergeHeaders [("Content-Type", "application/json")] extra
  match tok with
  | some t => if t = "" then merged else setKey merged "Authorization" ("Bearer " ++ t)
  | none => merged

/-- The outgoing request `fetch(baseUrl + url, { ...options, headers })`
issued by `makeAuthenticatedRequest`. -/
def buildRequest (s : PaymentService) (url : String) (opts : RequestOptions) : HttpRequest :=
  { url := s.apiBaseUrl ++ url
    method := opts.method
    body := opts.body
    headers := buildHeaders s.authToken opts.headers }

/-- A fetch response: its status code and the JSON value its body parses
to (`response.json()`). -/
structure HttpResponse where
  status : Nat
  jsonBody : Json

/-- `response.ok`: status in the inclusive range 200..299. -/
def responseOk (r : HttpResponse) : Bool :=
  decide (200 ≤ r.status) && decide (r.status ≤ 299)

/-- The error thrown on a non-ok response, carrying the status code. -/
structure HttpError where
  status : Nat
deriving DecidableEq

/-- The tail of `makeAuthenticatedRequest`: throw on `!response.ok`,
otherwise return `response.json()`. -/
def handleResponse (r : HttpResponse) : Except HttpError Json :=
  if responseOk r then Except.ok r.jsonBody else Except.error { status := r.status }

/-- Whether `response.json()` is invoked at all: it appears only in the
success branch after the `!response.ok` throw. -/
def jsonParseAttempted (r : HttpResponse) : Bool :=
  responseOk r

/-- `makeAuthenticatedRequest`, with the network as a function from the
outgoing request to a response. -/
def makeAuthenticatedRequest (s : PaymentService) (url : String) (opts : RequestOptions)
    (respond : HttpRequest → HttpResponse) : Except HttpError Json :=
  handleResponse (respond (buildRequest s url opts))

/-- The request issued by `getPricingPlans()`. -/
def getPricingPlansRequest (s : PaymentService) : HttpRequest :=
  buildRequest s "/pricing/plans" emptyOptions

/-- The request issued by `createSubscription(plan)`. -/
def createSubscriptionRequest (s : PaymentService) (plan : Json) : HttpRequest :=
  buildRequest s "/subscriptions/create"
    { method := some "POST"
      body := some (jsonStringify (Json.obj [("plan", plan)]))
      headers := [] }

/-- The request issued by `purchaseCredits(amount)`. -/
def purchaseCreditsRequest (s : PaymentService) (amount : Json) : HttpRequest :=
  buildRequest s "/credits/purchase"
    { method := some "POST"
      body := some (jsonStringify (Json.obj [("amount", amount)]))
      headers := [] }

/-- The request issued by `getSubscriptionStatus()`. -/
def getSubscriptionStatusRequest (s : PaymentService) : HttpRequest :=
  buildRequest s "/subscriptions/status" emptyOptions

/-- The request issued by `getUserAnalytics(days)`. -/
def getUserAnalyticsRequest (s : PaymentService) (days : Int) : HttpRequest :=
  buildRequest s ("/users/analytics?days=" ++ toString days) emptyOptions

/-- `getPricingPlans()`. -/
def getPricingPlans (s : PaymentService) (respond : HttpRequest → HttpResponse) :
    Except HttpError Json :=
  makeAuthenticatedRequest s "/pricing/plans" emptyOptions respond

/-- `createSubscription(plan)`. -/
def createSubscription (s : PaymentService) (plan : Json)
    (respond : HttpRequest → HttpResponse) : Except HttpError Json :=
  makeAuthenticatedRequest s "/subscriptions/create"
    { method := some "POST"
      body := some (jsonStringify (Json.obj [("plan", plan)]))
      headers := [] } respond

/-- `purchaseCredits(amount)`. -/
def purchaseCredits (s : PaymentService) (amount : Json)
    (respond : HttpRequest → HttpResponse) : Except HttpError Json :=
  makeAuthenticatedRequest s "/credits/purchase"
    { method := some "POST"
      body := some (jsonStringify (Json.obj [("amount", amount)]))
      headers := [] } respond

/-- `getSubscriptionStatus()`. -/
def getSubscriptionStatus (s : PaymentService) (respond : HttpRequest → HttpResponse) :
    Except HttpError Json :=
  makeAuthenticatedRequest s "/subscriptions/status" emptyOptions respond

/-- Observable browser state touched by the example handlers:
localStorage bindings, urls passed to `window.open` (with `none` for
`undefined`), alert messages, and the first string argument of each
`console.error` / `console.log` call, all in chronological order. -/
structure Browser where
  localStorage : List (String × String)
  opened : List (Option Json)
  alerts : List String
  errors : List String
  logs : List String

/-- A browser with empty storage and no recorded effects. -/
def emptyBrowser : Browser :=
  { localStorage := [], opened := [], alerts := [], errors := [], logs := [] }

/-- `window.open(url, '_blank')`. -/
def windowOpen (b : Browser) (url : Option Json) : Browser :=
  { b with opened := b.opened ++ [url] }

/-- `localStorage.setItem(k, v)` (the value is already coerced to a
string by the caller of this model). -/
def setItem (b : Browser) (k v : String) : Browser :=
  { b with localStorage := setKey b.localStorage k v }

/-- `localStorage.getItem(k)`. -/
def getItem (b : Browser) (k : String) : Option String :=
  lookupKey b.localStorage k

/-- `localStorage.removeItem(k)`. -/
def removeItem (b : Browser) (k : String) : Browser :=
  { b with localStorage := b.localStorage.filter (fun p => !(p.1 == k)) }

/-- `alert(msg)`. -/
def alertMsg (b : Browser) (msg : String) : Browser :=
  { b with alerts := b.alerts ++ [msg] }

/-- `console.error(msg, ...)`, recording the message string. -/
def consoleError (b : Browser) (msg : String) : Browser :=
  { b with errors := b.errors ++ [msg] }

/-- `console.log(msg, ...)`, recording the message string. -/
def consoleLog (b : Browser) (msg : String) : Browser :=
  { b with logs := b.logs ++ [msg] }

/-- `handleSubscriptionPurchase`, applied to the settled result of
`paymentService.createSubscription(plan)`: on a truthy `success` it opens
`checkout_url` and stores `session_id` under `stripe_session_id`; on a
thrown error it logs and alerts. -/
def handleSubscriptionPurchase (result : Except HttpError Json) (b : Browser) : Browser :=
  match result with
  | Except.ok response =>
      if jsTruthy (response.getField "success") then
        let b1 := windowOpen b (response.getField "checkout_url")
        setItem b1 "stripe_session_id" (jsToString (response.getField "session_id"))
      else b
  | Except.error _ =>
      alertMsg (consoleError b "Subscription purchase failed:")
        "Failed to create subscription checkout. Please try again."

/-- `handleCreditPurchase`, applied to the settled result of
`paymentService.purchaseCredits(amount)`: on a truthy `success` it opens
`checkout_url`, alerts with the credit total, and stores `session_id`;
on a thrown error it logs and alerts. -/
def handleCreditPurchase (result : Except HttpError Json) (b : Browser) : Browser :=
  match result with
  | Except.ok response =>
      if jsTruthy (response.getField "success") then
        let b1 := windowOpen b (response.getField "checkout_url")
        let b2 := alertMsg b1
          ("You\x27ll receive " ++ jsToString (response.getField "total_credits")
            ++ " credits after payment!")
        setItem b2 "stripe_session_id" (jsToString (response.getField "session_id"))
      else b
  | Except.error _ =>
      alertMsg (consoleError b "Credit purchase failed:")
        "Failed to create credit purchase checkout. Please try again."

/-- The ternary `credits === -1 ? 'Unlimited' : credits` inside the
template literal of `updateUserInterface`. -/
def displayCredits (credits : Option Json) : String :=
  match credits with
  | some (Json.num n) => if n == -1 then "Unlimited" else toString n
  | other => jsToString other

/-- `updateUserInterface(userStatus)`: logs tier and credits when
`success` is truthy. -/
def updateUserInterface (userStatus : Json) (b : Browser) : Browser :=
  if jsTruthy (userStatus.getField "success") then
    let b1 := consoleLog b ("User tier: " ++ jsToString (userStatus.getField "tier"))
    consoleLog b1 ("Available credits: " ++ displayCredits (userStatus.getField "credits"))
  else b

/-- JS truthiness of `urlParams.get('session_id')`: `null` (absent
parameter) and the empty string are both falsy. -/
def jsTruthyStr : Option String → Bool
  | none => false
  | some s => !(s == "")

/-- `handlePaymentSuccess()`: reads the `session_id` query parameter
(`none` when absent, `some ""` for a present-but-empty one); when the
truthiness guard `if (sessionId)` passes it awaits
`paymentService.getSubscriptionStatus()`, logs, updates the UI and removes
`stripe_session_id`, logging instead when the request throws.  Returns the
final browser state together with the list of HTTP requests issued. -/
def handlePaymentSuccess (s : PaymentService) (respond : HttpRequest → HttpResponse)
    (sessionId : Option String) (b : Browser) : Browser × List HttpRequest :=
  if jsTruthyStr sessionId then
      let req := getSubscriptionStatusRequest s
      match getSubscriptionStatus s respond with
      | Except.ok status =>
          let b1 := consoleLog b ("Updated user status: " ++ jsToStringVal status)
          let b2 := updateUserInterface status b1
          (removeItem b2 "stripe_session_id", [req])
      | Except.error _ =>
          (consoleError b "Failed to get updated user status:", [req])
  else (b, [])

/-- The uvicorn invocation produced by `start.sh`. -/
structure UvicornCommand where
  app : String
  host : String
  port : String
  workers : Nat
deriving DecidableEq

/-- `PORT=${PORT:-8000}`: the `:-` form substitutes the default when the
variable is unset or empty. -/
def effectivePort (envPort : Option String) : String :=
  match envPort with
  | none => "8000"
  | some p => if p = "" then "8000" else p

/-- `start.sh`: exec `uvicorn main:app --host 0.0.0.0 --port $PORT
--workers 1` with the effective port. -/
def startScript (envPort : Option String) : UvicornCommand :=
  { app := "main:app", host := "0.0.0.0", port := effectivePort envPort, workers := 1 }

/-- The mocked `/subscriptions/create` response of the checkout scenario. -/
def subscriptionResponse : Json :=
  Json.obj
    [("success", Json.bool true),
     ("checkout_url", Json.str "https://pay.example/cs_1"),
     ("session_id", Json.str "cs_1")]

/-- A network answering every request with status 200 and the mocked
subscription response. -/
def subscriptionNetwork : HttpRequest → HttpResponse :=
  fun _ => { status := 200, jsonBody := subscriptionResponse }

/-- Browser state after the full subscription scenario:
`handleSubscriptionPurchase` around `createSubscription("pro")` against the
mocked network, starting from a fresh browser. -/
def subscriptionBrowser : Browser :=
  handleSubscriptionPurchase
    (createSubscription defaultPaymentService (Json.str "pro") subscriptionNetwork)
    emptyBrowser

/-- The mocked `/credits/purchase` response of the credit scenario. -/
def creditResponse : Json :=
  Json.obj [("success", Json.bool true), ("total_credits", Json.num 120)]

/-- A network answering every request with status 200 and the mocked
credit response. -/
def creditNetwork : HttpRequest → HttpResponse :=
  fun _ => { status := 200, jsonBody := creditResponse }

/-- Browser state after the full credit scenario: `handleCreditPurchase`
around `purchaseCredits(100)` against the mocked network, starting from a
fresh browser. -/
def creditBrowser : Browser :=
  handleCreditPurchase
    (purchaseCredits defaultPaymentService (Json.num 100) creditNetwork)
    emptyBrowser

/-- A network that answers every request with a 500 status. -/
def failingStatusNetwork : HttpRequest → HttpResponse :=
  fun _ => { status := 500, jsonBody := Json.null }

/-- A network that answers every request with a 200 status and an empty
JSON object body. -/
def okStatusNetwork : HttpRequest → HttpResponse :=
  fun _ => { status := 200, jsonBody := Json.obj [] }

/-- A browser holding a stored checkout session id. -/
def sessionBrowser : Browser :=
  { emptyBrowser with localStorage := [("stripe_session_id", "cs_1")] }

theorem lookupKey_setKey_self (m : List (String × String)) (k v : String) :
    lookupKey (setKey m k v) k = some v := by
  induction m with
  | nil => simp [setKey, lookupKey]
  | cons p rest ih =>
      by_cases h : p.1 = k
      · simp [setKey, lookupKey, h]
      · simp [setKey, lookupKey, h] at ih ⊢
        exact ih

theorem lookupKey_setKey_ne (m : List (String × String)) (k v k' : String) (h : k' ≠ k) :
    lookupKey (setKey m k v) k' = lookupKey m k' := by
  have hkk : (k == k') = false := by simpa using Ne.symm h
  induction m with
  | nil => simp [setKey, lookupKey, List.find?, hkk]
  | cons p rest ih =>
      by_cases hp : p.1 = k
      · simp [setKey, lookupKey, List.find?, hp, hkk]
      · have hb : (p.1 == k) = false := by simpa using hp
        by_cases hp' : p.1 = k'
        · simp [setKey, lookupKey, List.find?, hb, hp', h]
        · have hb' : (p.1 == k') = false := by simpa using hp'
          simp [setKey, lookupKey, List.find?, hb, hb'] at ih ⊢
          exact ih

theorem lookupKey_mergeHeaders_ne (extra m : List (String × String)) (k : String)
    (h : ∀ p ∈ extra, p.1 ≠ k) :
    lookupKey (mergeHeaders m extra) k = lookupKey m k := by
  induction extra generalizing m with
  | nil => rfl
  | cons p rest ih =>
      have hp : p.1 ≠ k := h p (by simp)
      have hrest : ∀ q ∈ rest, q.1 ≠ k := fun q hq => h q (by simp [hq])
      have step : mergeHeaders m (p :: rest) = mergeHeaders (setKey m p.1 p.2) rest := rfl
      rw [step, ih _ hrest, lookupKey_setKey_ne _ _ _ _ (Ne.symm hp)]

theorem find?_filter_out (l : List (String × String)) (k : String) :
    (l.filter (fun p => !(p.1 == k))).find? (fun p => p.1 == k) = none := by
  induction l with
  | nil => rfl
  | cons p rest ih =>
      by_cases h : p.1 = k <;> simp [List.filter_cons, h, ih, List.find?]

theorem getItem_removeItem (b : Browser) (k : String) :
    getItem (removeItem b k) k = none := by
  simp [getItem, removeItem, lookupKey, find?_filter_out]

/-- A response with status in 200..299 passes the `!response.ok` guard and
resolves to its parsed body. -/
theorem handleResponse_ok (r : HttpResponse) (h200 : 200 ≤ r.status)
    (h299 : r.status ≤ 299) : handleResponse r = Except.ok r.jsonBody := by
  have hok : responseOk r = true := by simp [responseOk, h200, h299]
  simp [handleResponse, hok]

/-- With a truthy token in place, the built headers bind `Authorization`
to the bearer form of that token, whatever the caller's extra headers. -/
theorem authHeaderOfTruthy (tok : String) (extra : List (String × String)) (ht : tok ≠ "") :
    lookupKey (buildHeaders (some tok) extra) "Authorization" = some ("Bearer " ++ tok) := by
  simp only [buildHeaders]
  rw [if_neg (by simpa using ht)]
  exact lookupKey_setKey_self _ _ _

/-- With no token (or an empty one) and no caller-supplied `Authorization`
entry, the built headers bind no `Authorization` key. -/
theorem authHeaderAbsent (tok : Option String) (extra : List (String × String))
    (htok : tok = none ∨ tok = some "") (h : ∀ p ∈ extra, p.1 ≠ "Authorization") :
    lookupKey (buildHeaders tok extra) "Authorization" = none := by
  have hm : lookupKey (mergeHeaders [("Content-Type", "application/json")] extra)
      "Authorization" = none := by
    rw [lookupKey_mergeHeaders_ne _ _ _ h]
    decide
  rcases htok with h1 | h1 <;> simp [buildHeaders, h1, hm]

/-- Claim C1, amended.  After `setAuthToken(t)` with non-empty `t`, every
outgoing request carries `Authorization: Bearer t`.  Before any
`setAuthToken` call on a default-constructed service, no `Authorization`
header is present, provided the caller's extra headers do not themselves
contain an `Authorization` entry (the spread `...options.headers` would
otherwise inject one, see the counterexample). -/
theorem C1_corrected (s : PaymentService) (t url : String) (opts : RequestOptions)
    (ht : t ≠ "") :
    lookupKey (buildRequest (setAuthToken s (some t)) url opts).headers "Authorization"
      = some ("Bearer " ++ t)
    ∧ ((∀ p ∈ opts.headers, p.1 ≠ "Authorization") →
        lookupKey (buildRequest defaultPaymentService url opts).headers "Authorization"
          = none) := by
  constructor
  · exact authHeaderOfTruthy t opts.headers ht
  · intro hno
    exact authHeaderAbsent none opts.headers (Or.inl rfl) hno

/-- Claim C1 counterexample: on a default-constructed service with no
token ever set, a request whose options carry an `Authorization` extra
header does go out with an `Authorization` header, refuting "no
Authorization header is present" for every request. -/
theorem C1_counterexample :
    lookupKey (buildRequest defaultPaymentService "/pricing/plans"
        { method := none, body := none,
          headers := [("Authorization", "Bearer stale")] }).headers "Authorization"
      = some "Bearer stale"
    ∧ ¬ lookupKey (buildRequest defaultPaymentService "/pricing/plans"
        { method := none, body := none,
          headers := [("Authorization", "Bearer stale")] }).headers "Authorization"
      = none := by decide

/-- Claim C1 witness at a concrete token and request. -/
theorem C1_witness :
    lookupKey (buildRequest (setAuthToken defaultPaymentService (some "tok123"))
        "/subscriptions/status" emptyOptions).headers "Authorization"
      = some ("Bearer " ++ "tok123")
    ∧ lookupKey (buildRequest defaultPaymentService "/subscriptions/status"
        emptyOptions).headers "Authorization" = none :=
  ⟨(C1_corrected defaultPaymentService "tok123" "/subscriptions/status" emptyOptions
      (by decide)).1,
   (C1_corrected defaultPaymentService "tok123" "/subscriptions/status" emptyOptions
      (by decide)).2 (by intro p hp; simp [emptyOptions] at hp)⟩

/-- Claim C2: on any response with status outside 200..299 the request
fails with an `HttpError` carrying that status code; `response.json()` is
not invoked, and the outcome is independent of the response body. -/
theorem C2_http_error (s : PaymentService) (url : String) (opts : RequestOptions)
    (respond : HttpRequest → HttpResponse)
    (h : (respond (buildRequest s url opts)).status < 200
        ∨ 299 < (respond (buildRequest s url opts)).status) :
    makeAuthenticatedRequest s url opts respond
      = Except.error { status := (respond (buildRequest s url opts)).status }
    ∧ jsonParseAttempted (respond (buildRequest s url opts)) = false
    ∧ ∀ b' : Json,
        handleResponse
            { status := (respond (buildRequest s url opts)).status, jsonBody := b' }
          = Except.error { status := (respond (buildRequest s url opts)).status } := by
  have hok : responseOk (respond (buildRequest s url opts)) = false := by
    simp only [responseOk, Bool.and_eq_false_iff, decide_eq_false_iff_not]
    omega
  refine ⟨?_, ?_, ?_⟩
  · simp [makeAuthenticatedRequest, handleResponse, hok]
  · simpa [jsonParseAttempted] using hok
  · intro b'
    have hb : responseOk
        { status := (respond (buildRequest s url opts)).status, jsonBody := b' }
        = responseOk (respond (buildRequest s url opts)) := rfl
    simp [handleResponse, hb, hok]

/-- Claim C2 witness: a 500 response makes the request fail with status
500, without the body being parsed. -/
theorem C2_witness :
    makeAuthenticatedRequest defaultPaymentService "/pricing/plans" emptyOptions
        failingStatusNetwork
      = Except.error { status := 500 }
    ∧ jsonParseAttempted
        (failingStatusNetwork
          (buildRequest defaultPaymentService "/pricing/plans" emptyOptions)) = false
    ∧ handleResponse { status := 500, jsonBody := Json.null }
        = Except.error { status := 500 } :=
  ⟨(C2_http_error defaultPaymentService "/pricing/plans" emptyOptions failingStatusNetwork
      (Or.inr (by decide))).1,
   (C2_http_error defaultPaymentService "/pricing/plans" emptyOptions failingStatusNetwork
      (Or.inr (by decide))).2.1,
   (C2_http_error defaultPaymentService "/pricing/plans" emptyOptions failingStatusNetwork
      (Or.inr (by decide))).2.2 Json.null⟩

/-- Claim C3: on any response with status in 200..299 the request resolves
to exactly the JSON value the response body parses to (round-trip). -/
theorem C3_round_trip (s : PaymentService) (url : String) (opts : RequestOptions)
    (respond : HttpRequest → HttpResponse)
    (h200 : 200 ≤ (respond (buildRequest s url opts)).status)
    (h299 : (respond (buildRequest s url opts)).status ≤ 299) :
    makeAuthenticatedRequest s url opts respond
      = Except.ok (respond (buildRequest s url opts)).jsonBody := by
  have hok : responseOk (respond (buildRequest s url opts)) = true := by
    simp [responseOk, h200, h299]
  simp [makeAuthenticatedRequest, handleResponse, hok]

/-- Claim C3 witness: a 200 response with an empty-object body resolves to
that object. -/
theorem C3_witness :
    makeAuthenticatedRequest defaultPaymentService "/pricing/plans" emptyOptions
        okStatusNetwork
      = Except.ok (Json.obj []) :=
  C3_round_trip defaultPaymentService "/pricing/plans" emptyOptions okStatusNetwork
    (by decide) (by decide)

/-- Claim C4, amended.  Every outgoing request carries
`Content-Type: application/json`, provided the caller's extra headers do
not themselves bind `Content-Type`: the spread `...options.headers` comes
after the default and overrides it (see the counterexample). -/
theorem C4_corrected (s : PaymentService) (url : String) (opts : RequestOptions)
    (h : ∀ p ∈ opts.headers, p.1 ≠ "Content-Type") :
    lookupKey (buildRequest s url opts).headers "Content-Type"
      = some "application/json" := by
  have hm : lookupKey (mergeHeaders [("Content-Type", "application/json")] opts.headers)
      "Content-Type" = some "application/json" := by
    rw [lookupKey_mergeHeaders_ne _ _ _ h]
    decide
  show lookupKey (buildHeaders s.authToken opts.headers) "Content-Type"
      = some "application/json"
  cases htok : s.authToken with
  | none => simpa [buildHeaders] using hm
  | some t =>
      by_cases he : t = ""
      · simpa [buildHeaders, he] using hm
      · simp only [buildHeaders, he, if_false]
        rw [lookupKey_setKey_ne _ _ _ _ (by decide)]
        exact hm

/-- Claim C4 counterexample: extra headers carrying their own
`Content-Type` override the JSON default, refuting the claim for
arbitrary extra headers. -/
theorem C4_counterexample :
    lookupKey (buildRequest defaultPaymentService "/pricing/plans"
        { method := none, body := none,
          headers := [("Content-Type", "text/plain")] }).headers "Content-Type"
      = some "text/plain"
    ∧ ¬ lookupKey (buildRequest defaultPaymentService "/pricing/plans"
        { method := none, body := none,
          headers := [("Content-Type", "text/plain")] }).headers "Content-Type"
      = some "application/json" := by decide

/-- Claim C4 witness at a concrete request with no extra headers. -/
theorem C4_witness :
    lookupKey (buildRequest defaultPaymentService "/pricing/plans" emptyOptions).headers
      "Content-Type" = some "application/json" :=
  C4_corrected defaultPaymentService "/pricing/plans" emptyOptions
    (by intro p hp; simp [emptyOptions] at hp)

/-- Claim C5: `createSubscription("pro")` issues a POST to
`/subscriptions/create` with body `JSON.stringify({plan: "pro"})`, and
given the mocked checkout response, `handleSubscriptionPurchase` stores
`cs_1` under `stripe_session_id` and opens the checkout url. -/
theorem C5_subscription_scenario :
    (createSubscriptionRequest defaultPaymentService (Json.str "pro")).method = some "POST"
    ∧ (createSubscriptionRequest defaultPaymentService (Json.str "pro")).url
        = defaultPaymentService.apiBaseUrl ++ "/subscriptions/create"
    ∧ (createSubscriptionRequest defaultPaymentService (Json.str "pro")).body
        = some "\x7b\"plan\":\"pro\"\x7d"
    ∧ getItem subscriptionBrowser "stripe_session_id" = some "cs_1"
    ∧ subscriptionBrowser.opened = [some (Json.str "https://pay.example/cs_1")] :=
  ⟨by decide, by decide, by decide, by decide, rfl⟩

/-- Claim C6: `purchaseCredits(100)` issues a POST to `/credits/purchase`
with body `JSON.stringify({amount: 100})`, and given the mocked response
with `total_credits: 120`, the alert shown by `handleCreditPurchase`
reports 120 credits. -/
theorem C6_credit_scenario :
    (purchaseCreditsRequest defaultPaymentService (Json.num 100)).method = some "POST"
    ∧ (purchaseCreditsRequest defaultPaymentService (Json.num 100)).url
        = defaultPaymentService.apiBaseUrl ++ "/credits/purchase"
    ∧ (purchaseCreditsRequest defaultPaymentService (Json.num 100)).body
        = some "\x7b\"amount\":100\x7d"
    ∧ creditBrowser.alerts = ["You\x27ll receive 120 credits after payment!"] :=
  ⟨by decide, by decide, by decide, by decide⟩

/-- Claim C7, amended.  With no `session_id` query parameter, or with a
present-but-empty one (both falsy under the `if (sessionId)` guard),
`handlePaymentSuccess` does nothing and issues no request.  With a
non-empty one present it always issues the `getSubscriptionStatus`
request, and when that request succeeds (status 200..299) the stored
`stripe_session_id` key is removed.  When the request fails, the handler
only logs and the key survives (see the counterexample). -/
theorem C7_corrected (s : PaymentService) (respond : HttpRequest → HttpResponse)
    (b : Browser) :
    handlePaymentSuccess s respond none b = (b, [])
    ∧ handlePaymentSuccess s respond (some "") b = (b, [])
    ∧ (∀ sid : String, sid ≠ "" →
        (handlePaymentSuccess s respond (some sid) b).2
          = [getSubscriptionStatusRequest s])
    ∧ (∀ sid : String, sid ≠ "" →
        200 ≤ (respond (getSubscriptionStatusRequest s)).status →
        (respond (getSubscriptionStatusRequest s)).status ≤ 299 →
        getItem (handlePaymentSuccess s respond (some sid) b).1 "stripe_session_id"
          = none) := by
  refine ⟨rfl, rfl, ?_, ?_⟩
  · intro sid hsid
    cases hres : getSubscriptionStatus s respond with
    | ok v => simp [handlePaymentSuccess, jsTruthyStr, hsid, hres]
    | error e => simp [handlePaymentSuccess, jsTruthyStr, hsid, hres]
  · intro sid hsid h200 h299
    have hok : getSubscriptionStatus s respond
        = Except.ok (respond (getSubscriptionStatusRequest s)).jsonBody :=
      handleResponse_ok _ h200 h299
    simp [handlePaymentSuccess, jsTruthyStr, hsid, hok, getItem_removeItem]

/-- Claim C7 counterexample: with a `session_id` parameter present but the
status re-fetch answering 500, the request is issued yet the stored
`stripe_session_id` key is not removed, refuting unconditional removal. -/
theorem C7_counterexample :
    (handlePaymentSuccess defaultPaymentService failingStatusNetwork (some "cs_1")
        sessionBrowser).2 = [getSubscriptionStatusRequest defaultPaymentService]
    ∧ getItem (handlePaymentSuccess defaultPaymentService failingStatusNetwork
        (some "cs_1") sessionBrowser).1 "stripe_session_id" = some "cs_1" := by
  decide

/-- Claim C7 witness at a concrete browser and succeeding network. -/
theorem C7_witness :
    handlePaymentSuccess defaultPaymentService okStatusNetwork none sessionBrowser
      = (sessionBrowser, [])
    ∧ handlePaymentSuccess defaultPaymentService okStatusNetwork (some "") sessionBrowser
      = (sessionBrowser, [])
    ∧ (handlePaymentSuccess defaultPaymentService okStatusNetwork (some "cs_1")
        sessionBrowser).2 = [getSubscriptionStatusRequest defaultPaymentService]
    ∧ getItem (handlePaymentSuccess defaultPaymentService okStatusNetwork (some "cs_1")
        sessionBrowser).1 "stripe_session_id" = none :=
  ⟨(C7_corrected defaultPaymentService okStatusNetwork sessionBrowser).1,
   (C7_corrected defaultPaymentService okStatusNetwork sessionBrowser).2.1,
   (C7_corrected defaultPaymentService okStatusNetwork sessionBrowser).2.2.1 "cs_1"
     (by decide),
   (C7_corrected defaultPaymentService okStatusNetwork sessionBrowser).2.2.2 "cs_1"
     (by decide) (by decide) (by decide)⟩

/-- Claim C8: `setAuthToken(t)` replaces the stored token with exactly
`t`, with no validation and no change to `apiBaseUrl`, and every
subsequent request with a truthy new token carries its bearer header. -/
theorem C8_set_auth_token (s : PaymentService) (t : Option String) (url : String)
    (opts : RequestOptions) :
    setAuthToken s t = { apiBaseUrl := s.apiBaseUrl, authToken := t }
    ∧ (∀ t' : String, t = some t' → t' ≠ "" →
        lookupKey (buildRequest (setAuthToken s t) url opts).headers "Authorization"
          = some ("Bearer " ++ t')) := by
  refine ⟨rfl, ?_⟩
  intro t' ht ht'
  subst ht
  exact authHeaderOfTruthy t' opts.headers ht'

/-- Claim C8 witness: replacing an old token with a new one at a concrete
state and request. -/
theorem C8_witness :
    setAuthToken { apiBaseUrl := "http://localhost:8000", authToken := some "old" }
        (some "new")
      = { apiBaseUrl := "http://localhost:8000", authToken := some "new" }
    ∧ lookupKey (buildRequest
        (setAuthToken { apiBaseUrl := "http://localhost:8000", authToken := some "old" }
          (some "new")) "/credits/purchase" emptyOptions).headers "Authorization"
      = some ("Bearer " ++ "new") :=
  ⟨(C8_set_auth_token { apiBaseUrl := "http://localhost:8000", authToken := some "old" }
      (some "new") "/credits/purchase" emptyOptions).1,
   (C8_set_auth_token { apiBaseUrl := "http://localhost:8000", authToken := some "old" }
      (some "new") "/credits/purchase" emptyOptions).2 "new" rfl (by decide)⟩

/-- Claim C9: the startup script defaults `PORT` to 8000 when unset and
launches uvicorn on host 0.0.0.0 with the effective port and one worker. -/
theorem C9_startup :
    startScript none = { app := "main:app", host := "0.0.0.0", port := "8000", workers := 1 }
    ∧ ∀ p : String, p ≠ "" →
        startScript (some p)
          = { app := "main:app", host := "0.0.0.0", port := p, workers := 1 } := by
  refine ⟨rfl, ?_⟩
  intro p hp
  simp [startScript, effectivePort, hp]

/-- Claim C9 witness at a concrete port value. -/
theorem C9_witness :
    startScript none = { app := "main:app", host := "0.0.0.0", port := "8000", workers := 1 }
    ∧ startScript (some "9000")
        = { app := "main:app", host := "0.0.0.0", port := "9000", workers := 1 } :=
  ⟨C9_startup.1, C9_startup.2 "9000" (by decide)⟩

/-- Claim C10, amended.  A falsy token (empty string or null) makes every
subsequent request identical to one from a service whose token was never
set; in particular the client adds no `Authorization` header, and none is
present unless the caller's extra headers carry one themselves (see the
counterexample). -/
theorem C10_corrected (s : PaymentService) (url : String) (opts : RequestOptions) :
    buildRequest (setAuthToken s (some "")) url opts
      = buildRequest (setAuthToken s none) url opts
    ∧ buildRequest (setAuthToken s none) url opts
      = buildRequest { apiBaseUrl := s.apiBaseUrl, authToken := none } url opts
    ∧ ((∀ p ∈ opts.headers, p.1 ≠ "Authorization") →
        lookupKey (buildRequest (setAuthToken s (some "")) url opts).headers
          "Authorization" = none) := by
  refine ⟨rfl, rfl, ?_⟩
  intro h
  exact authHeaderAbsent (some "") opts.headers (Or.inr rfl) h

/-- Claim C10 counterexample: after `setAuthToken("")`, a request whose
extra headers carry `Authorization` still goes out with one, refuting "no
Authorization header" for every request. -/
theorem C10_counterexample :
    lookupKey (buildRequest (setAuthToken defaultPaymentService (some ""))
        "/pricing/plans"
        { method := none, body := none, headers := [("Authorization", "X")] }).headers
      "Authorization" = some "X" := by decide

/-- Claim C10 witness at a concrete request with no extra headers. -/
theorem C10_witness :
    buildRequest (setAuthToken defaultPaymentService (some "")) "/pricing/plans"
        emptyOptions
      = buildRequest (setAuthToken defaultPaymentService none) "/pricing/plans"
        emptyOptions
    ∧ buildRequest (setAuthToken defaultPaymentService none) "/pricing/plans" emptyOptions
      = buildRequest
          { apiBaseUrl := defaultPaymentService.apiBaseUrl, authToken := none }
          "/pricing/plans" emptyOptions
    ∧ lookupKey (buildRequest (setAuthToken defaultPaymentService (some ""))
        "/pricing/plans" emptyOptions).headers "Authorization" = none :=
  ⟨(C10_corrected defaultPaymentService "/pricing/plans" emptyOptions).1,
   (C10_corrected defaultPaymentService "/pricing/plans" emptyOptions).2.1,
   (C10_corrected defaultPaymentService "/pricing/plans" emptyOptions).2.2
     (by intro p hp; simp [emptyOptions] at hp)⟩

end QuillPayment
